import Mathlib

/-!
Shallow embedding of the streaming RAG chat backend (a single Flask
application file).  Pure helpers of the application (`format_docs`, the
SSE chunk formatting, the request validation of `chat_endpoint`, the
configuration checks of `create_rag_chain`, `health_check`) are
translated into Lean functions.  External effects are made explicit:

* the lazy token sequence returned by `rag_chain.stream(query)` is a
  `ChunkStream`: the finite list of chunks the iterator yields before it
  either finishes, raises the rate-limit error or raises any other
  exception;
* `request.get_json()` is a `JsonBody`: it either raises an exception or
  returns `None` or a dictionary (modelled as an association list);
* constructing the Azure clients and chain inside the `try` block of
  `create_rag_chain` is an `Except String RagChain` parameter, the
  outcome of that external construction;
* Python truthiness of strings and dictionaries is modelled by emptiness
  checks, and `json.dumps` (default options: `ensure_ascii`, separators
  `", "` and `": "`, insertion-ordered keys) is modelled by `pyDumps`.
-/

/-- Lower-case hexadecimal digit, as used by `json.dumps` in its
`\uXXXX` escapes. -/
def hexDigit (n : Nat) : Char :=
  if n < 10 then Char.ofNat (48 + n) else Char.ofNat (87 + n)

/-- Four lower-case hexadecimal digits of `n`. -/
def hex4 (n : Nat) : String :=
  String.mk [hexDigit (n / 4096 % 16), hexDigit (n / 256 % 16),
             hexDigit (n / 16 % 16), hexDigit (n % 16)]

/-- Escaping of one character inside a JSON string literal, following
CPython `json.dumps` with its default `ensure_ascii=True`: backslash and
double quote get a backslash escape, the usual control characters get
their short escapes, every other character outside the printable ASCII
range `0x20`–`0x7e` becomes `\uXXXX` (a surrogate pair above
`0xffff`). -/
def jsonEscapeChar (c : Char) : String :=
  let n := c.toNat
  if n = 34 then "\x5c\x22"
  else if n = 92 then "\x5c\x5c"
  else if n = 10 then "\x5cn"
  else if n = 13 then "\x5cr"
  else if n = 9 then "\x5ct"
  else if n = 8 then "\x5cb"
  else if n = 12 then "\x5cf"
  else if n < 32 || 126 < n then
    if n ≤ 65535 then "\x5cu" ++ hex4 n
    else "\x5cu" ++ hex4 (55296 + (n - 65536) / 1024) ++
         "\x5cu" ++ hex4 (56320 + (n - 65536) % 1024)
  else String.singleton c

/-- JSON string literal for `s`, as produced by `json.dumps`. -/
def jsonDumpString (s : String) : String :=
  "\x22" ++ String.join (s.data.map jsonEscapeChar) ++ "\x22"

/-- The JSON values the application serializes: strings, integers and
booleans. -/
inductive PyJson where
  | str (s : String)
  | int (n : Int)
  | bool (b : Bool)
  deriving DecidableEq

/-- Serialization of one JSON value, as by `json.dumps`. -/
def dumpsValue : PyJson → String
  | PyJson.str s => jsonDumpString s
  | PyJson.int n => toString n
  | PyJson.bool b => if b then "true" else "false"

/-- `json.dumps` of a Python dictionary (insertion-ordered association
list), with the default separators `", "` and `": "`. -/
def pyDumps (obj : List (String × PyJson)) : String :=
  "\x7b" ++
    String.intercalate ", "
      (obj.map (fun kv => jsonDumpString kv.1 ++ ": " ++ dumpsValue kv.2)) ++
  "\x7d"

/-- Lookup in an association list, modelling a Python dictionary access
(`m.get(k)` / `k in m`). -/
def lookupStr (m : List (String × String)) (k : String) : Option String :=
  (m.find? (fun kv => kv.1 == k)).map (fun kv => kv.2)

/-- Lookup in a JSON-object association list. -/
def lookupJson (m : List (String × PyJson)) (k : String) : Option PyJson :=
  (m.find? (fun kv => kv.1 == k)).map (fun kv => kv.2)

/-- A retrieved document fragment: `page_content` plus a metadata
mapping (string-valued fields suffice for this development; only
`"source"` is read). -/
structure Document where
  page_content : String
  metadata : List (String × String)
  deriving DecidableEq

/-- `doc.metadata.get('source', 'Unknown')`. -/
def metaSource (m : List (String × String)) : String :=
  (lookupStr m "source").getD "Unknown"

/-- The record built for one document inside `format_docs`:
`f"Source: {doc.metadata.get('source', 'Unknown')}\nContent: {doc.page_content}"`. -/
def formatRecord (doc : Document) : String :=
  "Source: " ++ metaSource doc.metadata ++ "\nContent: " ++ doc.page_content

/-- `format_docs` from `create_rag_chain`: the sentinel string on an
empty (falsy) list, otherwise the records joined by blank lines. -/
def format_docs (docs : List Document) : String :=
  if docs.isEmpty then "No relevant context found in the documents."
  else String.intercalate "\n\n" (docs.map formatRecord)

/-- How one consumption of the lazy sequence
`rag_chain_instance_global.stream(user_query)` ends: normal exhaustion,
`RateLimitError`, or any other exception (carrying `str(e)`). -/
inductive StreamOutcome where
  | ok
  | rateLimit (msg : String)
  | genError (msg : String)
  deriving DecidableEq

/-- One consumption of the lazy token sequence: the chunks the iterator
yields before it terminates with the given outcome. -/
structure ChunkStream where
  chunks : List String
  outcome : StreamOutcome
  deriving DecidableEq

/-- The RAG pipeline object: invoking `.stream(query)` produces a fresh
lazy chunk sequence for that query. -/
structure RagChain where
  stream : String → ChunkStream

/-- `f"data: {json.dumps({'token': chunk})}\n\n"`. -/
def sseTokenEvent (chunk : String) : String :=
  "data: " ++ pyDumps [("token", PyJson.str chunk)] ++ "\n\n"

/-- `f"event: error\ndata: {error_payload}\n\n"`. -/
def sseErrorEvent (payload : String) : String :=
  "event: error\ndata: " ++ payload ++ "\n\n"

/-- The fixed mid-stream rate-limit payload:
`json.dumps({"error": "API rate limit exceeded during stream. Please try again later.", "code": 429})`. -/
def rateLimitStreamPayload : String :=
  pyDumps [("error",
            PyJson.str "API rate limit exceeded during stream. Please try again later."),
           ("code", PyJson.int 429)]

/-- The mid-stream generic-error dictionary
`{"error": f"An error occurred during streaming: {str(e_stream)}"}`. -/
def streamErrorPayloadDict (msg : String) : List (String × PyJson) :=
  [("error", PyJson.str ("An error occurred during streaming: " ++ msg))]

/-- The `for chunk in ...:` loop body of `generate_stream`: each truthy
(non-empty) chunk is yielded wrapped as an SSE `data:` record, falsy
(empty) chunks are skipped. -/
def streamTokenLoop : List String → List String
  | [] => []
  | c :: rest =>
      if c = "" then streamTokenLoop rest
      else sseTokenEvent c :: streamTokenLoop rest

/-- The `generate_stream` generator of `chat_endpoint`, as the list of
strings it yields while consuming one `ChunkStream`: the wrapped
non-empty chunks, then — if the iterator raised — exactly one error
event (fixed 429 payload for `RateLimitError`, message-only payload for
any other exception). -/
def generate_stream (s : ChunkStream) : List String :=
  streamTokenLoop s.chunks ++
    match s.outcome with
    | StreamOutcome.ok => []
    | StreamOutcome.rateLimit _ => [sseErrorEvent rateLimitStreamPayload]
    | StreamOutcome.genError m =>
        [sseErrorEvent (pyDumps (streamErrorPayloadDict m))]

/-- An exception observable in `chat_endpoint` before the streaming
response object is constructed: `RateLimitError` or any other
exception (carrying `str(e)`). -/
inductive PyExc where
  | rateLimitError (msg : String)
  | otherError (msg : String)
  deriving DecidableEq

/-- The outcome of `request.get_json()`: it raises (malformed JSON,
unsupported content type, ...) or returns `None` or a dictionary. -/
inductive JsonBody where
  | raises (e : PyExc)
  | value (d : Option (List (String × String)))
  deriving DecidableEq

/-- A Flask response: an ordinary JSON response with a status code, or
a streaming response with a mimetype and the event strings its
generator yields. -/
inductive HttpResponse where
  | json (status : Nat) (body : List (String × PyJson))
  | sse (mimetype : String) (events : List String)
  deriving DecidableEq

/-- Whether a response is the streaming (event-stream) kind. -/
def isSSEResponse : HttpResponse → Bool
  | HttpResponse.sse _ _ => true
  | _ => false

/-- Body of the 400 validation response:
`{"error": "Missing 'query' field in request body"}`. -/
def missingQueryBody : List (String × PyJson) :=
  [("error", PyJson.str "Missing \x27query\x27 field in request body")]

/-- Body of the 500 response when the singleton is absent:
`{"error": "RAG chain not initialized. Server configuration issue."}`. -/
def notInitializedBody : List (String × PyJson) :=
  [("error", PyJson.str "RAG chain not initialized. Server configuration issue.")]

/-- `chat_endpoint`, as a function of the pipeline singleton and the
outcome of parsing the request body.  Faithful to the source order:
the `rag_chain_instance_global is None` check comes first (before the
body is ever parsed); then `data = request.get_json()` inside a `try`
whose handlers turn a pre-stream `RateLimitError` into HTTP 429 and any
other pre-stream exception into HTTP 500; then
`if not data or 'query' not in data` returns the 400 validation
response (`not data` is true for `None` and for an empty dictionary);
otherwise a streaming response is returned whose generator consumes
`rag_chain_instance_global.stream(data['query'])`. -/
def chat_endpoint (rag_chain_instance_global : Option RagChain)
    (req : JsonBody) : HttpResponse :=
  match rag_chain_instance_global with
  | none => HttpResponse.json 500 notInitializedBody
  | some chain =>
    match req with
    | JsonBody.raises (PyExc.rateLimitError _) =>
        HttpResponse.json 429
          [("error", PyJson.str "API rate limit exceeded. Please try again later.")]
    | JsonBody.raises (PyExc.otherError m) =>
        HttpResponse.json 500
          [("error", PyJson.str ("An internal error occurred: " ++ m))]
    | JsonBody.value d =>
        match d with
        | none => HttpResponse.json 400 missingQueryBody
        | some data =>
            if data.isEmpty then HttpResponse.json 400 missingQueryBody
            else
              match lookupStr data "query" with
              | none => HttpResponse.json 400 missingQueryBody
              | some user_query =>
                  HttpResponse.sse "text/event-stream"
                    (generate_stream (chain.stream user_query))

/-- The eleven environment variables read at module load, each absent
(`None`) or a string. -/
structure EnvConfig where
  AZURE_OPENAI_ENDPOINT_EMBEDDINGS : Option String
  AZURE_OPENAI_API_KEY_EMBEDDINGS : Option String
  AZURE_OPENAI_EMBEDDING_DEPLOYMENT_NAME : Option String
  AZURE_OPENAI_API_VERSION_EMBEDDINGS : Option String
  AZURE_OPENAI_ENDPOINT_CHAT : Option String
  AZURE_OPENAI_API_KEY_CHAT : Option String
  AZURE_OPENAI_CHAT_DEPLOYMENT_NAME : Option String
  AZURE_OPENAI_API_VERSION_CHAT : Option String
  AZURE_AI_SEARCH_ENDPOINT : Option String
  AZURE_AI_SEARCH_API_KEY : Option String
  AZURE_AI_SEARCH_INDEX_NAME : Option String

/-- Python truthiness of `os.getenv(...)`: set and non-empty. -/
def truthy : Option String → Bool
  | none => false
  | some s => !s.isEmpty

/-- The first `all([...])` check of `create_rag_chain` (embeddings
group). -/
def embeddingsVarsSet (e : EnvConfig) : Bool :=
  truthy e.AZURE_OPENAI_ENDPOINT_EMBEDDINGS &&
  truthy e.AZURE_OPENAI_API_KEY_EMBEDDINGS &&
  truthy e.AZURE_OPENAI_EMBEDDING_DEPLOYMENT_NAME &&
  truthy e.AZURE_OPENAI_API_VERSION_EMBEDDINGS

/-- The second `all([...])` check of `create_rag_chain` (chat group). -/
def chatVarsSet (e : EnvConfig) : Bool :=
  truthy e.AZURE_OPENAI_ENDPOINT_CHAT &&
  truthy e.AZURE_OPENAI_API_KEY_CHAT &&
  truthy e.AZURE_OPENAI_CHAT_DEPLOYMENT_NAME &&
  truthy e.AZURE_OPENAI_API_VERSION_CHAT

/-- The third `all([...])` check of `create_rag_chain` (search group). -/
def searchVarsSet (e : EnvConfig) : Bool :=
  truthy e.AZURE_AI_SEARCH_ENDPOINT &&
  truthy e.AZURE_AI_SEARCH_API_KEY &&
  truthy e.AZURE_AI_SEARCH_INDEX_NAME

/-- `create_rag_chain`: each incomplete configuration group returns
`None` after logging; otherwise the `try` block builds the clients and
chain (an external construction, passed here as its outcome `build`):
any exception is caught, logged, and turned into `None`, success
returns the chain. -/
def create_rag_chain (env : EnvConfig)
    (build : Except String RagChain) : Option RagChain :=
  if !embeddingsVarsSet env then none
  else if !chatVarsSet env then none
  else if !searchVarsSet env then none
  else
    match build with
    | Except.error _ => none
    | Except.ok chain => some chain

/-- Body of the 200 health response. -/
def healthOkBody : List (String × PyJson) :=
  [("status", PyJson.str "ok"),
   ("message",
    PyJson.str "Flask application is running and RAG chain is initialized."),
   ("rag_chain_initialized", PyJson.bool true)]

/-- Body of the 503 health response. -/
def healthErrBody : List (String × PyJson) :=
  [("status", PyJson.str "error"),
   ("message",
    PyJson.str "Flask application is running, but the RAG chain failed to initialize. Check server logs for details."),
   ("rag_chain_initialized", PyJson.bool false)]

/-- `health_check`: reads the singleton and answers 200 or 503; the
second component returns the singleton as the handler leaves it
(unchanged — the handler only reads the global). -/
def health_check (g : Option RagChain) :
    (Nat × List (String × PyJson)) × Option RagChain :=
  match g with
  | some _ => ((200, healthOkBody), g)
  | none => ((503, healthErrBody), g)

/-- A concrete pipeline double used by closed witness statements: every
query yields the single chunk list `["ans"]` and ends normally. -/
def testChain : RagChain :=
  ⟨fun _ => ⟨["ans"], StreamOutcome.ok⟩⟩

/-- A configuration with every variable set to a non-empty string. -/
def fullEnv : EnvConfig :=
  ⟨some "e1", some "k1", some "d1", some "v1",
   some "e2", some "k2", some "d2", some "v2",
   some "e3", some "k3", some "i3"⟩

/-- A configuration with every variable absent. -/
def emptyEnv : EnvConfig :=
  ⟨none, none, none, none, none, none, none, none, none, none, none⟩

/-- Status code of a response (streaming responses commit HTTP 200). -/
def statusOf : HttpResponse → Nat
  | HttpResponse.json status _ => status
  | HttpResponse.sse _ _ => 200

/-- The loop of the stream generator yields exactly the non-empty
chunks, wrapped as SSE data records, in generation order. -/
theorem streamTokenLoop_eq (chunks : List String) :
    streamTokenLoop chunks
      = (chunks.filter (fun c => c != "")).map sseTokenEvent := by
  induction chunks with
  | nil => rfl
  | cons c rest ih =>
      by_cases h : c = ""
      · subst h; simp [streamTokenLoop, ih]
      · simp [streamTokenLoop, ih, h]

/-- Claim C1: for every finite chunk sequence the stream ends normally
on, the SSE body is exactly the non-empty chunks wrapped as
data records carrying the token, in generation order with empty chunks
dropped; in particular the chunk sequence Hel, lo, empty, space-world
yields exactly the three token records Hel, lo, space-world. -/
theorem generate_stream_ok_tokens (chunks : List String) :
    generate_stream ⟨chunks, StreamOutcome.ok⟩
      = (chunks.filter (fun c => c != "")).map sseTokenEvent ∧
    generate_stream ⟨["Hel", "lo", "", " world"], StreamOutcome.ok⟩
      = ["data: \x7b\x22token\x22: \x22Hel\x22\x7d\n\n",
         "data: \x7b\x22token\x22: \x22lo\x22\x7d\n\n",
         "data: \x7b\x22token\x22: \x22 world\x22\x7d\n\n"] := by
  refine ⟨?_, by rfl⟩
  simp [generate_stream, streamTokenLoop_eq]

/-- Claim C2: when the stream raises the rate-limit exception after any
chunk prefix, the SSE body is exactly the token events of the non-empty
prefix chunks followed by exactly one error event whose JSON payload
has code 429, and nothing after it; in particular for the prefix A, B
the body is the two token events then the single 429 error event. -/
theorem generate_stream_rate_limit (chunks : List String) (msg : String) :
    generate_stream ⟨chunks, StreamOutcome.rateLimit msg⟩
      = (chunks.filter (fun c => c != "")).map sseTokenEvent
        ++ [sseErrorEvent rateLimitStreamPayload] ∧
    sseErrorEvent rateLimitStreamPayload
      = "event: error\ndata: \x7b\x22error\x22: \x22API rate limit exceeded during stream. Please try again later.\x22, \x22code\x22: 429\x7d\n\n" ∧
    generate_stream ⟨["A", "B"], StreamOutcome.rateLimit msg⟩
      = [sseTokenEvent "A", sseTokenEvent "B",
         sseErrorEvent rateLimitStreamPayload] := by
  refine ⟨?_, by rfl, by rfl⟩
  simp [generate_stream, streamTokenLoop_eq]

/-- Claim C3: when the stream raises any non-rate-limit exception after
any chunk prefix, the SSE body is exactly the token events of the
non-empty prefix chunks followed by exactly one error event whose JSON
payload has an error message as its only key (no numeric code field),
and nothing after it. -/
theorem generate_stream_generic_error (chunks : List String) (msg : String) :
    generate_stream ⟨chunks, StreamOutcome.genError msg⟩
      = (chunks.filter (fun c => c != "")).map sseTokenEvent
        ++ [sseErrorEvent (pyDumps (streamErrorPayloadDict msg))] ∧
    (streamErrorPayloadDict msg).map Prod.fst = ["error"] ∧
    pyDumps (streamErrorPayloadDict msg)
      = "\x7b\x22error\x22: "
        ++ jsonDumpString ("An error occurred during streaming: " ++ msg)
        ++ "\x7d" := by
  refine ⟨?_, rfl, by rfl⟩
  simp [generate_stream, streamTokenLoop_eq]

/-- Claim C4, counterexample: with the pipeline singleton absent, a
request whose parsed body lacks the query key is answered with the
HTTP 500 not-initialized response, not the HTTP 400 validation
response claimed — the singleton check runs before body validation. -/
theorem chat_endpoint_absent_chain_counterexample :
    chat_endpoint none (JsonBody.value none) = HttpResponse.json 500 notInitializedBody ∧
    chat_endpoint none (JsonBody.value none) ≠ HttpResponse.json 400 missingQueryBody := by
  exact ⟨rfl, by decide⟩

/-- Claim C4, amended: with the pipeline singleton present, every
request whose body parses to nothing, to an empty dictionary, or to a
dictionary without the query key is answered with HTTP 400 and the
fixed missing-query body, and no event-stream response is produced. -/
theorem chat_endpoint_missing_query_400 (chain : RagChain)
    (d : Option (List (String × String)))
    (h : d = none ∨ ∃ data, d = some data ∧
          (data.isEmpty = true ∨ lookupStr data "query" = none)) :
    chat_endpoint (some chain) (JsonBody.value d)
      = HttpResponse.json 400 missingQueryBody := by
  rcases h with rfl | ⟨data, rfl, h2 | h2⟩
  · rfl
  · simp [chat_endpoint, h2]
  · by_cases he : data.isEmpty
    · simp [chat_endpoint, he]
    · simp [chat_endpoint, he, h2]

/-- Witness for the amended claim C4 at a concrete dictionary without
the query key. -/
theorem chat_endpoint_missing_query_400_witness :
    chat_endpoint (some testChain) (JsonBody.value (some [("q", "hi")]))
      = HttpResponse.json 400 missingQueryBody :=
  chat_endpoint_missing_query_400 testChain (some [("q", "hi")])
    (Or.inr ⟨[("q", "hi")], rfl, Or.inr rfl⟩)

/-- Claim C5, counterexample: a request whose query value is the empty
string is not rejected — the endpoint opens a streaming response whose
generator consumes the pipeline invoked on the empty query. -/
theorem chat_endpoint_empty_query_counterexample :
    chat_endpoint (some testChain) (JsonBody.value (some [("query", "")]))
      = HttpResponse.sse "text/event-stream"
          (generate_stream (testChain.stream "")) ∧
    isSSEResponse
      (chat_endpoint (some testChain) (JsonBody.value (some [("query", "")]))) = true := by
  exact ⟨rfl, rfl⟩

/-- Claim C5, amended: for every pipeline and every parsed dictionary
whose query key maps to the empty string, validation passes and the
endpoint returns the streaming response obtained by invoking the
pipeline on the empty query — the empty string is not rejected. -/
theorem chat_endpoint_empty_query_streams (chain : RagChain)
    (data : List (String × String))
    (h : lookupStr data "query" = some "") :
    chat_endpoint (some chain) (JsonBody.value (some data))
      = HttpResponse.sse "text/event-stream"
          (generate_stream (chain.stream "")) := by
  have hne : data.isEmpty = false := by
    cases data with
    | nil => simp [lookupStr] at h
    | cons kv rest => rfl
  simp [chat_endpoint, hne, h]

/-- Witness for the amended claim C5 at a concrete one-entry
dictionary mapping the query key to the empty string. -/
theorem chat_endpoint_empty_query_streams_witness :
    chat_endpoint (some testChain) (JsonBody.value (some [("query", "")]))
      = HttpResponse.sse "text/event-stream"
          (generate_stream (testChain.stream "")) :=
  chat_endpoint_empty_query_streams testChain [("query", "")] rfl

/-- Claim C6: the context formatter returns the fixed sentinel string
on the empty fragment sequence; on every non-empty sequence it returns
the Source/Content records joined by blank lines in retrieval order
(being a pure function of the ordered sequence, the result is
byte-identical across calls on the same input); and when the metadata
lacks a source field the record uses the Unknown default. -/
theorem format_docs_spec :
    format_docs [] = "No relevant context found in the documents." ∧
    (∀ d ds, format_docs (d :: ds)
        = String.intercalate "\n\n" (List.map formatRecord (d :: ds))) ∧
    (∀ content m, lookupStr m "source" = none →
        formatRecord ⟨content, m⟩ = "Source: Unknown\nContent: " ++ content) := by
  refine ⟨rfl, fun d ds => rfl, fun content m h => ?_⟩
  unfold formatRecord metaSource
  rw [h]
  rfl

/-- Witness for claim C6 at a fragment whose metadata lacks the source
field. -/
theorem format_docs_spec_witness :
    formatRecord ⟨"alpha", []⟩ = "Source: Unknown\nContent: alpha" :=
  format_docs_spec.2.2 "alpha" [] rfl

/-- Claim C7: an exception raised before the streaming response object
is constructed yields an ordinary JSON response, never an event-stream
one: HTTP 429 with the fixed rate-limit body for the rate-limit
exception, HTTP 500 carrying the message for every other exception. -/
theorem chat_endpoint_pre_stream_errors (chain : RagChain) (msg : String) :
    chat_endpoint (some chain) (JsonBody.raises (PyExc.rateLimitError msg))
      = HttpResponse.json 429
          [("error", PyJson.str "API rate limit exceeded. Please try again later.")] ∧
    chat_endpoint (some chain) (JsonBody.raises (PyExc.otherError msg))
      = HttpResponse.json 500
          [("error", PyJson.str ("An internal error occurred: " ++ msg))] ∧
    isSSEResponse
      (chat_endpoint (some chain) (JsonBody.raises (PyExc.rateLimitError msg))) = false ∧
    isSSEResponse
      (chat_endpoint (some chain) (JsonBody.raises (PyExc.otherError msg))) = false :=
  ⟨rfl, rfl, rfl, rfl⟩

/-- Claim C8: pipeline construction is total — whenever any of the
three configuration groups is incomplete the result is none, whenever
the external client/chain construction raises the result is none, and
when all groups are complete and construction succeeds the result is
the built pipeline; no exception ever propagates to the caller. -/
theorem create_rag_chain_spec (env : EnvConfig) (msg : String)
    (chain : RagChain) (build : Except String RagChain) :
    ((embeddingsVarsSet env = false ∨ chatVarsSet env = false ∨
        searchVarsSet env = false) → create_rag_chain env build = none) ∧
    create_rag_chain env (Except.error msg) = none ∧
    ((embeddingsVarsSet env = true ∧ chatVarsSet env = true ∧
        searchVarsSet env = true) →
      create_rag_chain env (Except.ok chain) = some chain) := by
  refine ⟨fun h => ?_, ?_, fun hall => ?_⟩
  · rcases h with h | h | h
    · simp [create_rag_chain, h]
    · by_cases h1 : embeddingsVarsSet env <;> simp [create_rag_chain, h, h1]
    · by_cases h1 : embeddingsVarsSet env <;> by_cases h2 : chatVarsSet env <;>
        simp [create_rag_chain, h, h1, h2]
  · by_cases h1 : embeddingsVarsSet env <;> by_cases h2 : chatVarsSet env <;>
      by_cases h3 : searchVarsSet env <;> simp [create_rag_chain, h1, h2, h3]
  · obtain ⟨h1, h2, h3⟩ := hall
    simp [create_rag_chain, h1, h2, h3]

/-- Witness for claim C8 at the all-absent configuration, at the full
configuration with a failing construction, and at the full
configuration with a succeeding construction. -/
theorem create_rag_chain_spec_witness :
    create_rag_chain emptyEnv (Except.ok testChain) = none ∧
    create_rag_chain fullEnv (Except.error "boom") = none ∧
    create_rag_chain fullEnv (Except.ok testChain) = some testChain :=
  ⟨(create_rag_chain_spec emptyEnv "boom" testChain (Except.ok testChain)).1
      (Or.inl (by decide)),
   (create_rag_chain_spec fullEnv "boom" testChain (Except.error "boom")).2.1,
   (create_rag_chain_spec fullEnv "boom" testChain (Except.ok testChain)).2.2
      ⟨by decide, by decide, by decide⟩⟩

/-- Claim C9: the health endpoint leaves the singleton unchanged and
answers HTTP 200 with status ok and initialized true exactly when the
singleton is non-null, and HTTP 503 with status error and initialized
false exactly when it is null. -/
theorem health_check_spec (g : Option RagChain) :
    (health_check g).2 = g ∧
    (g ≠ none → health_check g = ((200, healthOkBody), g) ∧
      lookupJson healthOkBody "status" = some (PyJson.str "ok") ∧
      lookupJson healthOkBody "rag_chain_initialized" = some (PyJson.bool true)) ∧
    (g = none → health_check g = ((503, healthErrBody), g) ∧
      lookupJson healthErrBody "status" = some (PyJson.str "error") ∧
      lookupJson healthErrBody "rag_chain_initialized" = some (PyJson.bool false)) := by
  cases g with
  | none => exact ⟨rfl, fun h => absurd rfl h, fun _ => ⟨rfl, rfl, rfl⟩⟩
  | some c => exact ⟨rfl, fun _ => ⟨rfl, rfl, rfl⟩, fun h => Option.noConfusion h⟩

/-- Witness for claim C9 at a present and at an absent singleton. -/
theorem health_check_spec_witness :
    health_check (some testChain) = ((200, healthOkBody), some testChain) ∧
    health_check none = ((503, healthErrBody), none) :=
  ⟨((health_check_spec (some testChain)).2.1 (fun h => Option.noConfusion h)).1,
   ((health_check_spec none).2.2 rfl).1⟩

/-- Claim C10: with the pipeline singleton present, a body whose JSON
parsing raises a non-rate-limit exception is answered by the generic
pre-stream handler with HTTP 500 and the internal-error message — not
by the HTTP 400 validation response. -/
theorem chat_endpoint_body_parse_failure_500 (chain : RagChain) (msg : String) :
    chat_endpoint (some chain) (JsonBody.raises (PyExc.otherError msg))
      = HttpResponse.json 500
          [("error", PyJson.str ("An internal error occurred: " ++ msg))] ∧
    statusOf (chat_endpoint (some chain) (JsonBody.raises (PyExc.otherError msg))) = 500 ∧
    chat_endpoint (some chain) (JsonBody.raises (PyExc.otherError msg))
      ≠ HttpResponse.json 400 missingQueryBody := by
  refine ⟨rfl, rfl, fun h => ?_⟩
  exact (by decide : ¬((500 : Nat) = 400)) (congrArg statusOf h)
